import Mathlib

/-!
# The ANN index facade `cuvs::neighbors::iface` and the multi-device IVF-Flat wrapper

Shallow embedding of

* `cpp/include/cuvs/neighbors/iface.hpp` (class template `iface<AnnIndexType, T, IdxT>`), and
* `cpp/bench/ann/src/cuvs/cuvs_ann_mg_ivf_flat_wrapper.h` (class template
  `cuvs_ann_mg_ivf_flat<T, IdxT>`).

Conventions of the embedding.

* A template instantiation is a triple `(A, T, IdxT)` of type names; every
  `if constexpr (std::is_same<AnnIndexType, X>::value)` is the test `A = X`.
* The backend algorithms (`ivf_flat::build`, `cagra::search`, ...) live outside these
  two files.  They are parameters of the model: a record of functions that may throw.
* A member function returns an `Outcome`: the object after the call (an exception leaves
  the object as it was when the exception was thrown), the calls issued on the backend
  and on the resource handle, in order, and the value returned or the exception thrown.
* Element values (`T`, `float`) are carried as integer codes; the facade never computes
  on them.
-/

namespace cuvs.neighbors

/-- Element types `T` the templates are instantiated with. -/
inductive ElemType where
  | float
  | half
  | int8
  | uint8
  deriving DecidableEq, Repr

/-- Identifier types `IdxT` the templates are instantiated with. -/
inductive IdType where
  | int64
  | uint32
  | int32
  deriving DecidableEq, Repr

/-- The three index namespaces `ivf_flat`, `ivf_pq`, `cagra`. -/
inductive Kind where
  | ivf_flat
  | ivf_pq
  | cagra
  deriving DecidableEq, Repr

/-- Type names that can be passed as the template argument `AnnIndexType`:
`ivf_flat::index<T, IdxT>`, `ivf_pq::index<IdxT>`, `cagra::index<T, IdxT>`. -/
inductive AnnIndexType where
  | ivf_flat (T : ElemType) (IdxT : IdType)
  | ivf_pq (IdxT : IdType)
  | cagra (T : ElemType) (IdxT : IdType)
  deriving DecidableEq, Repr

/-- The namespace an index type name belongs to. -/
def AnnIndexType.kind : AnnIndexType → Kind
  | .ivf_flat _ _ => .ivf_flat
  | .ivf_pq _ => .ivf_pq
  | .cagra _ _ => .cagra

/-- Exceptions leaving a member function.
* `logic_error msg`: `raft::logic_error` raised by `RAFT_FAIL(msg)`;
* `bad_optional_access`: `std::bad_optional_access` raised by `index_.value()` on an
  empty `std::optional` (how an absent index is reported);
* `backend code`: an exception thrown inside a backend call;
* `missing_return`: control reaches the end of the non-void `size()` (no branch taken);
* `bad_cast`: `std::bad_cast` raised by a `dynamic_cast` to a reference type;
* `assertion_failed`: a failed `assert`, which aborts the process;
* `null_dereference`: `*index_` on a null `std::shared_ptr`. -/
inductive Err where
  | logic_error (msg : String)
  | bad_optional_access
  | backend (code : Nat)
  | missing_return
  | bad_cast
  | assertion_failed
  | null_dereference
  deriving DecidableEq, Repr

/-- The conversion `IdxT(n)` of an integer to the identifier type (wrap-around). -/
def IdType.convert (IdxT : IdType) (n : Int) : Int :=
  match IdxT with
  | .int64 => (n + 2 ^ 63) % 2 ^ 64 - 2 ^ 63
  | .uint32 => n % 2 ^ 32
  | .int32 => (n + 2 ^ 31) % 2 ^ 32 - 2 ^ 31

/-- A byte stream (`std::ostream` contents, or what is left to read of a `std::istream`). -/
abbrev Bytes := List Nat

/-- A row-major matrix view `raft::mdspan<T, matrix_extent<int64_t>, row_major>`: the two
extents and the elements reachable from `data_handle()`. -/
structure mdspan where
  extent0 : Int
  extent1 : Int
  data : List Int
  deriving DecidableEq, Repr

/-- A view is well formed when it spans exactly `extent0 * extent1` elements. -/
def mdspan.wf (m : mdspan) : Prop :=
  0 ≤ m.extent0 ∧ 0 ≤ m.extent1 ∧ (m.data.length : Int) = m.extent0 * m.extent1

/-- An object behind a `const index_params*` or `const search_params*` base pointer: the
namespace of its dynamic type (`ivf_flat::index_params`, `ivf_pq::index_params`, ...) and
its fields. -/
structure params_obj (D : Type) where
  kind : Kind
  fields : D
  deriving DecidableEq, Repr

/-- The functions of the namespaces `ivf_flat` and `ivf_pq` used by the facade.
`I` index values, `P` objects behind `const index_params*`, `S` objects behind
`const search_params*`, `O` the pair of output buffers `(d_neighbors, d_distances)`. -/
structure IvfApi (I P S O : Type) where
  /-- Function `build(handle, params, dataset)` -/
  build : P → mdspan → Except Err I
  /-- Function `extend(handle, new_vectors, new_indices, index)` -/
  extend : mdspan → Option (List Int) → I → Except Err I
  /-- Function `search(handle, params, index, queries, neighbors, distances)` -/
  search : S → I → mdspan → O → Except Err O
  /-- Function `serialize(handle, os, index)`: the bytes written to `os` -/
  serialize : I → Except Err Bytes
  /-- Function `deserialize(handle, is, &idx)`: the index read and the rest of `is` -/
  deserialize : Bytes → I → Except Err (I × Bytes)
  /-- Function `index<...> idx(handle)`: the empty index -/
  index : I
  /-- Function `index::size()` -/
  size : I → Int

/-- The functions of the namespace `cagra` used by the facade (there is no `extend`, and
`serialize` takes the flag `include_dataset`). -/
structure CagraApi (I P S O : Type) where
  build : P → mdspan → Except Err I
  search : S → I → mdspan → O → Except Err O
  serialize : I → Bool → Except Err Bytes
  deserialize : Bytes → I → Except Err (I × Bytes)
  index : I
  size : I → Int

/-- The backend library as seen from `iface.hpp`. -/
structure Backend (I P S O : Type) where
  ivf_flat : IvfApi I P S O
  ivf_pq : IvfApi I P S O
  cagra : CagraApi I P S O

/-- Calls issued by the facade, with their arguments. -/
inductive Call (I P S : Type) where
  | build (k : Kind) (params : P) (dataset : mdspan)
  | extend (k : Kind) (new_vectors : mdspan) (new_indices : Option (List Int)) (index : I)
  | search (k : Kind) (params : S) (index : I) (queries : mdspan)
  | serialize (k : Kind) (index : I)
  | deserialize (k : Kind) (is : Bytes)
  | sync_stream
  deriving DecidableEq, Repr

/-- Result of running a member function. -/
structure Outcome (σ C α : Type) where
  self : σ
  calls : List C
  result : Except Err α

/-- The facade object: `std::optional<AnnIndexType> index_`. -/
structure iface (I : Type) where
  index_ : Option I
  deriving DecidableEq, Repr

/-- The accessor `std::optional::value()`. -/
def value {I : Type} (o : Option I) : Except Err I :=
  match o with
  | some v => .ok v
  | none => .error .bad_optional_access

section facade

variable {I P S O : Type}

/-- Member `iface::build` (iface.hpp 40-62). The parameter pointer is `static_cast` to the
parameter type of the branch taken and handed to that branch's `build`. -/
def iface.build (A : AnnIndexType) (T : ElemType) (IdxT : IdType) (B : Backend I P S O)
    (self : iface I) (index_params : P) (index_dataset : mdspan) :
    Outcome (iface I) (Call I P S) Unit :=
  if A = .ivf_flat T IdxT then
    match B.ivf_flat.build index_params index_dataset with
    | .error e => ⟨self, [.build .ivf_flat index_params index_dataset], .error e⟩
    | .ok idx =>
      ⟨⟨some idx⟩, [.build .ivf_flat index_params index_dataset, .sync_stream], .ok ()⟩
  else if A = .ivf_pq IdxT then
    match B.ivf_pq.build index_params index_dataset with
    | .error e => ⟨self, [.build .ivf_pq index_params index_dataset], .error e⟩
    | .ok idx =>
      ⟨⟨some idx⟩, [.build .ivf_pq index_params index_dataset, .sync_stream], .ok ()⟩
  else if A = .cagra T IdxT then
    let _idx := B.cagra.index
    match B.cagra.build index_params index_dataset with
    | .error e => ⟨self, [.build .cagra index_params index_dataset], .error e⟩
    | .ok idx =>
      ⟨⟨some idx⟩, [.build .cagra index_params index_dataset, .sync_stream], .ok ()⟩
  else
    ⟨self, [.sync_stream], .ok ()⟩

/-- Member `iface::extend` (iface.hpp 64-82). `index_.value()` is an argument of the backend
call, so it is evaluated, and may throw, before the call is made. -/
def iface.extend (A : AnnIndexType) (T : ElemType) (IdxT : IdType) (B : Backend I P S O)
    (self : iface I) (new_vectors : mdspan) (new_indices : Option (List Int)) :
    Outcome (iface I) (Call I P S) Unit :=
  if A = .ivf_flat T IdxT then
    match value self.index_ with
    | .error e => ⟨self, [], .error e⟩
    | .ok cur =>
      match B.ivf_flat.extend new_vectors new_indices cur with
      | .error e => ⟨self, [.extend .ivf_flat new_vectors new_indices cur], .error e⟩
      | .ok idx =>
        ⟨⟨some idx⟩, [.extend .ivf_flat new_vectors new_indices cur, .sync_stream], .ok ()⟩
  else if A = .ivf_pq IdxT then
    match value self.index_ with
    | .error e => ⟨self, [], .error e⟩
    | .ok cur =>
      match B.ivf_pq.extend new_vectors new_indices cur with
      | .error e => ⟨self, [.extend .ivf_pq new_vectors new_indices cur], .error e⟩
      | .ok idx =>
        ⟨⟨some idx⟩, [.extend .ivf_pq new_vectors new_indices cur, .sync_stream], .ok ()⟩
  else if A = .cagra T IdxT then
    ⟨self, [], .error (.logic_error "CAGRA does not implement the extend method")⟩
  else
    ⟨self, [.sync_stream], .ok ()⟩

/-- The device copy of the host queries made at the top of `iface::search`: a fresh
`n_rows x n_dims` matrix filled with the first `n_rows * n_dims` host elements. -/
def d_queries (h_queries : mdspan) : mdspan :=
  let n_rows := h_queries.extent0
  let n_dims := h_queries.extent1
  ⟨n_rows, n_dims, h_queries.data.take (n_rows * n_dims).toNat⟩

/-- Member `iface::search` (iface.hpp 84-125). `out` is the pair of caller-owned output buffers;
the value returned is their content after the call. The three branches test
`ivf_flat::index<T, int64_t>`, `ivf_pq::index<int64_t>` and `cagra::index<T, uint32_t>`. -/
def iface.search (A : AnnIndexType) (T : ElemType) (_IdxT : IdType) (B : Backend I P S O)
    (self : iface I) (search_params : S) (h_queries : mdspan) (out : O) :
    Outcome (iface I) (Call I P S) O :=
  let d_query_view := d_queries h_queries
  if A = .ivf_flat T .int64 then
    match value self.index_ with
    | .error e => ⟨self, [], .error e⟩
    | .ok cur =>
      match B.ivf_flat.search search_params cur d_query_view out with
      | .error e => ⟨self, [.search .ivf_flat search_params cur d_query_view], .error e⟩
      | .ok res =>
        ⟨self, [.search .ivf_flat search_params cur d_query_view, .sync_stream], .ok res⟩
  else if A = .ivf_pq .int64 then
    match value self.index_ with
    | .error e => ⟨self, [], .error e⟩
    | .ok cur =>
      match B.ivf_pq.search search_params cur d_query_view out with
      | .error e => ⟨self, [.search .ivf_pq search_params cur d_query_view], .error e⟩
      | .ok res =>
        ⟨self, [.search .ivf_pq search_params cur d_query_view, .sync_stream], .ok res⟩
  else if A = .cagra T .uint32 then
    match value self.index_ with
    | .error e => ⟨self, [], .error e⟩
    | .ok cur =>
      match B.cagra.search search_params cur d_query_view out with
      | .error e => ⟨self, [.search .cagra search_params cur d_query_view], .error e⟩
      | .ok res =>
        ⟨self, [.search .cagra search_params cur d_query_view, .sync_stream], .ok res⟩
  else
    ⟨self, [.sync_stream], .ok out⟩

/-- Member `iface::serialize` (iface.hpp 127-137). The value returned is the content of `os`
after the call. -/
def iface.serialize (A : AnnIndexType) (T : ElemType) (IdxT : IdType) (B : Backend I P S O)
    (self : iface I) (os : Bytes) : Outcome (iface I) (Call I P S) Bytes :=
  if A = .ivf_flat T IdxT then
    match value self.index_ with
    | .error e => ⟨self, [], .error e⟩
    | .ok cur =>
      match B.ivf_flat.serialize cur with
      | .error e => ⟨self, [.serialize .ivf_flat cur], .error e⟩
      | .ok bs => ⟨self, [.serialize .ivf_flat cur], .ok (os ++ bs)⟩
  else if A = .ivf_pq IdxT then
    match value self.index_ with
    | .error e => ⟨self, [], .error e⟩
    | .ok cur =>
      match B.ivf_pq.serialize cur with
      | .error e => ⟨self, [.serialize .ivf_pq cur], .error e⟩
      | .ok bs => ⟨self, [.serialize .ivf_pq cur], .ok (os ++ bs)⟩
  else if A = .cagra T IdxT then
    match value self.index_ with
    | .error e => ⟨self, [], .error e⟩
    | .ok cur =>
      match B.cagra.serialize cur true with
      | .error e => ⟨self, [.serialize .cagra cur], .error e⟩
      | .ok bs => ⟨self, [.serialize .cagra cur], .ok (os ++ bs)⟩
  else
    ⟨self, [], .ok os⟩

/-- The dispatch shared by both overloads of `iface::deserialize` (iface.hpp 142-154 and
164-176). The value returned is what is left to read of `is`. -/
def iface.deserialize (A : AnnIndexType) (T : ElemType) (IdxT : IdType) (B : Backend I P S O)
    (self : iface I) (is : Bytes) : Outcome (iface I) (Call I P S) Bytes :=
  if A = .ivf_flat T IdxT then
    match B.ivf_flat.deserialize is B.ivf_flat.index with
    | .error e => ⟨self, [.deserialize .ivf_flat is], .error e⟩
    | .ok (idx, rest) => ⟨⟨some idx⟩, [.deserialize .ivf_flat is], .ok rest⟩
  else if A = .ivf_pq IdxT then
    match B.ivf_pq.deserialize is B.ivf_pq.index with
    | .error e => ⟨self, [.deserialize .ivf_pq is], .error e⟩
    | .ok (idx, rest) => ⟨⟨some idx⟩, [.deserialize .ivf_pq is], .ok rest⟩
  else if A = .cagra T IdxT then
    match B.cagra.deserialize is B.cagra.index with
    | .error e => ⟨self, [.deserialize .cagra is], .error e⟩
    | .ok (idx, rest) => ⟨⟨some idx⟩, [.deserialize .cagra is], .ok rest⟩
  else
    ⟨self, [], .ok is⟩

/-- Member `iface::deserialize(handle, filename)` (iface.hpp 157-179). `fs filename` is the
content of the file when `std::ifstream` can open it, `none` when it cannot. -/
def iface.deserialize_file (A : AnnIndexType) (T : ElemType) (IdxT : IdType)
    (B : Backend I P S O) (fs : String → Option Bytes) (self : iface I) (filename : String) :
    Outcome (iface I) (Call I P S) Unit :=
  match fs filename with
  | none => ⟨self, [], .error (.logic_error ("Cannot open file " ++ filename))⟩
  | some is =>
    let r := iface.deserialize A T IdxT B self is
    match r.result with
    | .error e => ⟨r.self, r.calls, .error e⟩
    | .ok _ => ⟨r.self, r.calls, .ok ()⟩

/-- Member `iface::size` (iface.hpp 181-191). -/
def iface.size (A : AnnIndexType) (T : ElemType) (IdxT : IdType) (B : Backend I P S O)
    (self : iface I) : Except Err Int :=
  if A = .ivf_flat T IdxT then
    match value self.index_ with
    | .error e => .error e
    | .ok cur => .ok (B.ivf_flat.size cur)
  else if A = .ivf_pq IdxT then
    match value self.index_ with
    | .error e => .error e
    | .ok cur => .ok (B.ivf_pq.size cur)
  else if A = .cagra T IdxT then
    match value self.index_ with
    | .error e => .error e
    | .ok cur => .ok (B.cagra.size cur)
  else
    .error .missing_return

/-- The `build` of the namespace `k`. -/
def Backend.build_of (B : Backend I P S O) (k : Kind) : P → mdspan → Except Err I :=
  match k with
  | .ivf_flat => B.ivf_flat.build
  | .ivf_pq => B.ivf_pq.build
  | .cagra => B.cagra.build

/-- The `search` of the namespace `k`. -/
def Backend.search_of (B : Backend I P S O) (k : Kind) : S → I → mdspan → O → Except Err O :=
  match k with
  | .ivf_flat => B.ivf_flat.search
  | .ivf_pq => B.ivf_pq.search
  | .cagra => B.cagra.search

/-- The `size()` of an index of the namespace `k`. -/
def Backend.size_of (B : Backend I P S O) (k : Kind) : I → Int :=
  match k with
  | .ivf_flat => B.ivf_flat.size
  | .ivf_pq => B.ivf_pq.size
  | .cagra => B.cagra.size

/-- The instantiations `iface<ivf_flat::index<T, IdxT>, T, IdxT>`,
`iface<ivf_pq::index<IdxT>, T, IdxT>` and `iface<cagra::index<T, IdxT>, T, IdxT>`: the
index type is built from the facade's own `T` and `IdxT`. -/
def instantiation (k : Kind) (T : ElemType) (IdxT : IdType) : AnnIndexType :=
  match k with
  | .ivf_flat => .ivf_flat T IdxT
  | .ivf_pq => .ivf_pq IdxT
  | .cagra => .cagra T IdxT

/-- The identifier type the branches of `iface::search` are written for. -/
def search_id (k : Kind) : IdType :=
  match k with
  | .ivf_flat => .int64
  | .ivf_pq => .int64
  | .cagra => .uint32

/-- Every backend `deserialize` reads back the index its `serialize` wrote (for `cagra`,
written with `include_dataset = true` as the facade does). -/
def Backend.inverts (B : Backend I P S O) : Prop :=
  (∀ i bs, B.ivf_flat.serialize i = .ok bs →
      ∃ rest, B.ivf_flat.deserialize bs B.ivf_flat.index = .ok (i, rest)) ∧
  (∀ i bs, B.ivf_pq.serialize i = .ok bs →
      ∃ rest, B.ivf_pq.deserialize bs B.ivf_pq.index = .ok (i, rest)) ∧
  (∀ i bs, B.cagra.serialize i true = .ok bs →
      ∃ rest, B.cagra.deserialize bs B.cagra.index = .ok (i, rest))

end facade

/-! ### A concrete backend, to evaluate the model on explicit inputs

An index is the number of vectors it holds; it is written as one byte-stream cell. -/

/-- Concrete `ivf_flat` / `ivf_pq` functions: `build` rejects an empty dataset, `extend`
adds the new rows, `search` writes the index size into every output cell. -/
def sample_ivf : IvfApi Nat (params_obj Nat) (params_obj Nat) (List Int) where
  build := fun _ ds => if ds.extent0 ≤ 0 then .error (.backend 1) else .ok ds.extent0.toNat
  extend := fun nv _ i => .ok (i + nv.extent0.toNat)
  search := fun _ i _ out => .ok (out.map (fun _ => (i : Int)))
  serialize := fun i => .ok [i]
  deserialize := fun bs _ =>
    match bs with
    | n :: rest => .ok (n, rest)
    | [] => .error (.backend 2)
  index := 0
  size := fun i => (i : Int)

/-- Concrete `cagra` functions, as `sample_ivf`. -/
def sample_cagra : CagraApi Nat (params_obj Nat) (params_obj Nat) (List Int) where
  build := fun _ ds => if ds.extent0 ≤ 0 then .error (.backend 1) else .ok ds.extent0.toNat
  search := fun _ i _ out => .ok (out.map (fun _ => (i : Int)))
  serialize := fun i _ => .ok [i]
  deserialize := fun bs _ =>
    match bs with
    | n :: rest => .ok (n, rest)
    | [] => .error (.backend 2)
  index := 0
  size := fun i => (i : Int)

/-- The concrete backend. -/
def sample_backend : Backend Nat (params_obj Nat) (params_obj Nat) (List Int) :=
  ⟨sample_ivf, sample_ivf, sample_cagra⟩

/-- A file system in which only `index.bin` can be opened. -/
def sample_fs (filename : String) : Option Bytes :=
  if filename = "index.bin" then some [7] else none

end cuvs.neighbors

namespace cuvs.bench

open cuvs.neighbors

/-- Type `cuvs::neighbors::ivf_flat::search_params`, declared outside these sources; the one
field the wrapper reads is `n_probes` (`uint32_t`), the rest is kept as `other`. -/
structure ivf_flat_search_params where
  n_probes : Nat
  other : Nat
  deriving DecidableEq, Repr

/-- Type `cuvs::neighbors::ivf_flat::mg_index_params` (`build_param`), declared outside these
sources; the one field the wrapper reads is `n_lists` (`uint32_t`). -/
structure build_param where
  n_lists : Nat
  other : Nat
  deriving DecidableEq, Repr

/-- Type `cuvs::neighbors::mg::sharded_merge_mode`, an enumeration declared outside these
sources, carried by its numeric value. -/
abbrev sharded_merge_mode := Nat

/-- Type `cuvs_ann_mg_ivf_flat::search_param`: the `ivf_flat_params` inherited from
`cuvs_ivf_flat<T, IdxT>::search_param`, and `merge_mode`. -/
structure search_param where
  ivf_flat_params : ivf_flat_search_params
  merge_mode : sharded_merge_mode
  deriving DecidableEq, Repr

/-- An object passed as `const search_param_base&`: its dynamic type is either
`cuvs_ann_mg_ivf_flat::search_param` or another class derived from the base. -/
inductive search_param_base where
  | mg_ivf_flat (sp : search_param)
  | foreign (id : Nat)
  deriving DecidableEq, Repr

/-- The cast `dynamic_cast<const search_param&>(param)`. -/
def dynamic_cast (param : search_param_base) : Except Err search_param :=
  match param with
  | .mg_ivf_flat sp => .ok sp
  | .foreign _ => .error .bad_cast

/-- The functions of `cuvs::neighbors::mg` used by the wrapper; `X` is the type of
`ann_mg_index` values, `O` the pair of output buffers of a search. -/
structure MgApi (X O : Type) where
  /-- Function `mg::build(handle, clique, index_params, dataset_view)` -/
  build : build_param → mdspan → Except Err X
  /-- Function `mg::serialize(handle, clique, index, file)` -/
  serialize : X → String → Except Err Unit
  /-- Function `mg::deserialize_flat<T, IdxT>(handle, clique, file)` -/
  deserialize_flat : String → Except Err X
  /-- Function `mg::search(handle, clique, index, search_params, queries, neighbors, distances,
  merge_mode)` -/
  search : X → ivf_flat_search_params → mdspan → O → sharded_merge_mode → Except Err O

/-- Calls issued by the wrapper. -/
inductive MgCall (X : Type) where
  | set_current_device_to_root_rank
  | build (params : build_param) (dataset_view : mdspan)
  | serialize (index : X) (file : String)
  | deserialize_flat (file : String)
  | search (index : X) (params : ivf_flat_search_params) (queries : mdspan)
      (merge_mode : sharded_merge_mode)
  deriving DecidableEq, Repr

/-- The data members of `cuvs_ann_mg_ivf_flat<T, IdxT>` (and `dim_` of its base `algo<T>`);
`index_` is a `std::shared_ptr`, `none` when null. -/
structure cuvs_ann_mg_ivf_flat (X : Type) where
  dim_ : Int
  index_params_ : build_param
  search_params_ : ivf_flat_search_params
  merge_mode_ : sharded_merge_mode
  index_ : Option X
  deriving DecidableEq, Repr

section wrapper

variable {X O : Type}

/-- Member `cuvs_ann_mg_ivf_flat::build` (wrapper 83-93): `dataset` are the elements behind the
pointer, `nrow` the `size_t` row count. -/
def cuvs_ann_mg_ivf_flat.build (IdxT : IdType) (M : MgApi X O) (self : cuvs_ann_mg_ivf_flat X)
    (dataset : List Int) (nrow : Nat) : Outcome (cuvs_ann_mg_ivf_flat X) (MgCall X) Unit :=
  let dataset_view : mdspan := ⟨IdxT.convert nrow, IdxT.convert self.dim_, dataset⟩
  match M.build self.index_params_ dataset_view with
  | .error e =>
    ⟨self, [.set_current_device_to_root_rank, .build self.index_params_ dataset_view], .error e⟩
  | .ok idx =>
    ⟨{ self with index_ := some idx },
      [.set_current_device_to_root_rank, .build self.index_params_ dataset_view], .ok ()⟩

/-- Member `cuvs_ann_mg_ivf_flat::set_search_param` (wrapper 95-102). `ndebug` tells whether the
translation unit is compiled with `NDEBUG`, in which case `assert` expands to nothing. The
two members are assigned before the assertion is evaluated. -/
def cuvs_ann_mg_ivf_flat.set_search_param (ndebug : Bool) (self : cuvs_ann_mg_ivf_flat X)
    (param : search_param_base) : Outcome (cuvs_ann_mg_ivf_flat X) (MgCall X) Unit :=
  match dynamic_cast param with
  | .error e => ⟨self, [], .error e⟩
  | .ok sp =>
    let self1 := { self with search_params_ := sp.ivf_flat_params }
    let self2 := { self1 with merge_mode_ := sp.merge_mode }
    if ndebug then ⟨self2, [], .ok ()⟩
    else if self2.search_params_.n_probes ≤ self2.index_params_.n_lists then
      ⟨self2, [], .ok ()⟩
    else ⟨self2, [], .error .assertion_failed⟩

/-- The dereference `*index_` on the shared pointer. -/
def deref (o : Option X) : Except Err X :=
  match o with
  | some v => .ok v
  | none => .error .null_dereference

/-- Member `cuvs_ann_mg_ivf_flat::save` (wrapper 104-109). -/
def cuvs_ann_mg_ivf_flat.save (M : MgApi X O) (self : cuvs_ann_mg_ivf_flat X)
    (file : String) : Outcome (cuvs_ann_mg_ivf_flat X) (MgCall X) Unit :=
  match deref self.index_ with
  | .error e => ⟨self, [.set_current_device_to_root_rank], .error e⟩
  | .ok idx =>
    ⟨self, [.set_current_device_to_root_rank, .serialize idx file], M.serialize idx file⟩

/-- Member `cuvs_ann_mg_ivf_flat::load` (wrapper 111-118): the right-hand side is evaluated
before `index_` is assigned. -/
def cuvs_ann_mg_ivf_flat.load (M : MgApi X O) (self : cuvs_ann_mg_ivf_flat X)
    (file : String) : Outcome (cuvs_ann_mg_ivf_flat X) (MgCall X) Unit :=
  match M.deserialize_flat file with
  | .error e => ⟨self, [.set_current_device_to_root_rank, .deserialize_flat file], .error e⟩
  | .ok idx =>
    ⟨{ self with index_ := some idx },
      [.set_current_device_to_root_rank, .deserialize_flat file], .ok ()⟩

/-- Member `cuvs_ann_mg_ivf_flat::search` (wrapper 126-146); `out` is the pair of host output
buffers, the value returned is their content after the call. -/
def cuvs_ann_mg_ivf_flat.search (IdxT : IdType) (M : MgApi X O) (self : cuvs_ann_mg_ivf_flat X)
    (queries : List Int) (batch_size : Int) (_k : Int) (out : O) :
    Outcome (cuvs_ann_mg_ivf_flat X) (MgCall X) O :=
  let queries_view : mdspan := ⟨IdxT.convert batch_size, IdxT.convert self.dim_, queries⟩
  match deref self.index_ with
  | .error e => ⟨self, [.set_current_device_to_root_rank], .error e⟩
  | .ok idx =>
    ⟨self,
      [.set_current_device_to_root_rank,
        .search idx self.search_params_ queries_view self.merge_mode_],
      M.search idx self.search_params_ queries_view out self.merge_mode_⟩

end wrapper

/-- A concrete `mg` library: an index is its number of rows; `build` rejects an empty
dataset and no file can be read back. -/
def sample_mg : MgApi Nat (List Int) where
  build := fun _ v => if v.extent0 ≤ 0 then .error (.backend 1) else .ok v.extent0.toNat
  serialize := fun _ _ => .ok ()
  deserialize_flat := fun _ => .error (.backend 3)
  search := fun i _ _ out _ => .ok (out.map (fun _ => (i : Int)))

/-- A wrapper object holding an index of 9 rows built with `n_lists = 3`. -/
def sample_wrapper : cuvs_ann_mg_ivf_flat Nat :=
  { dim_ := 4, index_params_ := ⟨3, 0⟩, search_params_ := ⟨1, 0⟩, merge_mode_ := 0,
    index_ := some 9 }

end cuvs.bench

/-! ## Properties -/

namespace cuvs.neighbors

variable {I P S O : Type}

/-- C1. On a facade over `cagra::index<T, IdxT>`, whatever the state (index absent or
populated) and whatever `new_vectors` / `new_indices`, `iface::extend` throws the
`RAFT_FAIL` error "CAGRA does not implement the extend method" (the spec's
`UnsupportedOperation`), issues no call at all (so no backend `extend`), and leaves the
object, hence the held index, as it was. -/
theorem extend_cagra_unsupported (T : ElemType) (IdxT : IdType) (B : Backend I P S O)
    (self : iface I) (new_vectors : mdspan) (new_indices : Option (List Int)) :
    (iface.extend (.cagra T IdxT) T IdxT B self new_vectors new_indices).result
        = .error (.logic_error "CAGRA does not implement the extend method") ∧
    (iface.extend (.cagra T IdxT) T IdxT B self new_vectors new_indices).calls = [] ∧
    (iface.extend (.cagra T IdxT) T IdxT B self new_vectors new_indices).self = self := by
  simp [iface.extend]

/-- C2. On a populated facade over `ivf_flat::index<T, IdxT>` or `ivf_pq::index<IdxT>`,
assuming the backend `extend` returns an index whose size is the size of its input plus
the number of rows of `new_vectors`: when `iface::extend` returns normally, the facade
holds exactly the index the backend `extend` returned for the previously held index, and
`size()` afterwards is `size()` before plus the number of rows. -/
theorem extend_ivf_adds_rows (k : Kind) (T : ElemType) (IdxT : IdType) (B : Backend I P S O)
    (cur : I) (new_vectors : mdspan) (new_indices : Option (List Int))
    (hk : k = .ivf_flat ∨ k = .ivf_pq)
    (hflat : ∀ i j, B.ivf_flat.extend new_vectors new_indices i = .ok j →
      B.ivf_flat.size j = B.ivf_flat.size i + new_vectors.extent0)
    (hpq : ∀ i j, B.ivf_pq.extend new_vectors new_indices i = .ok j →
      B.ivf_pq.size j = B.ivf_pq.size i + new_vectors.extent0)
    (hok : (iface.extend (instantiation k T IdxT) T IdxT B ⟨some cur⟩
      new_vectors new_indices).result = .ok ()) :
    ∃ idx,
      (k = .ivf_flat → B.ivf_flat.extend new_vectors new_indices cur = .ok idx) ∧
      (k = .ivf_pq → B.ivf_pq.extend new_vectors new_indices cur = .ok idx) ∧
      (iface.extend (instantiation k T IdxT) T IdxT B ⟨some cur⟩
        new_vectors new_indices).self = ⟨some idx⟩ ∧
      iface.size (instantiation k T IdxT) T IdxT B ⟨some cur⟩ = .ok (B.size_of k cur) ∧
      iface.size (instantiation k T IdxT) T IdxT B
        (iface.extend (instantiation k T IdxT) T IdxT B ⟨some cur⟩
          new_vectors new_indices).self = .ok (B.size_of k cur + new_vectors.extent0) := by
  rcases hk with rfl | rfl
  · cases h : B.ivf_flat.extend new_vectors new_indices cur with
    | error e => simp [instantiation, iface.extend, value, h] at hok
    | ok idx =>
      refine ⟨idx, ?_, ?_, ?_, ?_, ?_⟩
      · intro _; rfl
      · intro hc; cases hc
      · simp [instantiation, iface.extend, value, h]
      · simp [instantiation, iface.size, value, Backend.size_of]
      · simp [instantiation, iface.extend, iface.size, value, h, Backend.size_of,
          hflat cur idx h]
  · cases h : B.ivf_pq.extend new_vectors new_indices cur with
    | error e => simp [instantiation, iface.extend, value, h] at hok
    | ok idx =>
      refine ⟨idx, ?_, ?_, ?_, ?_, ?_⟩
      · intro hc; cases hc
      · intro _; rfl
      · simp [instantiation, iface.extend, value, h]
      · simp [instantiation, iface.size, value, Backend.size_of]
      · simp [instantiation, iface.extend, iface.size, value, h, Backend.size_of,
          hpq cur idx h]

/-- Witness of C2: extending the concrete IVF-Flat index of 5 vectors by a 2-row matrix. -/
theorem extend_ivf_adds_rows_witness :
    ∃ idx,
      (Kind.ivf_flat = .ivf_flat →
        sample_backend.ivf_flat.extend ⟨2, 1, [10, 20]⟩ none 5 = .ok idx) ∧
      (Kind.ivf_flat = .ivf_pq →
        sample_backend.ivf_pq.extend ⟨2, 1, [10, 20]⟩ none 5 = .ok idx) ∧
      (iface.extend (instantiation .ivf_flat .float .int64) .float .int64 sample_backend
        ⟨some 5⟩ ⟨2, 1, [10, 20]⟩ none).self = ⟨some idx⟩ ∧
      iface.size (instantiation .ivf_flat .float .int64) .float .int64 sample_backend
        ⟨some 5⟩ = .ok (sample_backend.size_of .ivf_flat 5) ∧
      iface.size (instantiation .ivf_flat .float .int64) .float .int64 sample_backend
        (iface.extend (instantiation .ivf_flat .float .int64) .float .int64 sample_backend
          ⟨some 5⟩ ⟨2, 1, [10, 20]⟩ none).self
        = .ok (sample_backend.size_of .ivf_flat 5 + (2 : Int)) :=
  extend_ivf_adds_rows .ivf_flat .float .int64 sample_backend 5 ⟨2, 1, [10, 20]⟩ none
    (Or.inl rfl)
    (by intro i j h; simp [sample_backend, sample_ivf] at h; simp [sample_backend, sample_ivf, ← h])
    (by intro i j h; simp [sample_backend, sample_ivf] at h; simp [sample_backend, sample_ivf, ← h])
    rfl

/-- C7. With the index absent, `size()` throws `std::bad_optional_access` (the spec's
`NotBuilt`) on the facades of all three kinds, and `extend` on an IVF-Flat or IVF-PQ
facade throws it without issuing any call (so without calling the backend `extend`) and
leaves the index absent; on a populated facade `size()` returns normally, with the size
of the held backend index. -/
theorem absent_index_not_built (T : ElemType) (IdxT : IdType) (B : Backend I P S O)
    (new_vectors : mdspan) (new_indices : Option (List Int)) (cur : I) :
    (∀ k, iface.size (instantiation k T IdxT) T IdxT B ⟨none⟩
      = .error .bad_optional_access) ∧
    (∀ k, k ≠ .cagra →
      (iface.extend (instantiation k T IdxT) T IdxT B ⟨none⟩ new_vectors new_indices).result
        = .error .bad_optional_access ∧
      (iface.extend (instantiation k T IdxT) T IdxT B ⟨none⟩ new_vectors new_indices).calls
        = [] ∧
      (iface.extend (instantiation k T IdxT) T IdxT B ⟨none⟩ new_vectors new_indices).self
        = ⟨none⟩) ∧
    (∀ k, iface.size (instantiation k T IdxT) T IdxT B ⟨some cur⟩
      = .ok (B.size_of k cur)) := by
  refine ⟨?_, ?_, ?_⟩
  · intro k
    cases k <;> simp [instantiation, iface.size, value]
  · intro k hk
    cases k <;> simp_all [instantiation, iface.extend, value]
  · intro k
    cases k <;> simp [instantiation, iface.size, value, Backend.size_of]

/-- C8. For every instantiation of the facade, every state and every file name that
cannot be opened, `iface::deserialize(handle, filename)` throws the `RAFT_FAIL` error
"Cannot open file <filename>" (the spec's `IOFailure`), issues no call (so no backend
`deserialize`), and leaves the object as it was. -/
theorem deserialize_file_cannot_open (A : AnnIndexType) (T : ElemType) (IdxT : IdType)
    (B : Backend I P S O) (fs : String → Option Bytes) (self : iface I) (filename : String)
    (h : fs filename = none) :
    (iface.deserialize_file A T IdxT B fs self filename).result
      = .error (.logic_error ("Cannot open file " ++ filename)) ∧
    (iface.deserialize_file A T IdxT B fs self filename).calls = [] ∧
    (iface.deserialize_file A T IdxT B fs self filename).self = self := by
  simp [iface.deserialize_file, h]

/-- Witness of C8: `missing.bin` cannot be opened in the concrete file system. -/
theorem deserialize_file_cannot_open_witness :
    sample_fs "missing.bin" = none ∧
    (iface.deserialize_file (.cagra .float .uint32) .float .uint32 sample_backend sample_fs
        ⟨some 4⟩ "missing.bin").result
      = .error (.logic_error ("Cannot open file " ++ "missing.bin")) ∧
    (iface.deserialize_file (.cagra .float .uint32) .float .uint32 sample_backend sample_fs
        ⟨some 4⟩ "missing.bin").calls = [] ∧
    (iface.deserialize_file (.cagra .float .uint32) .float .uint32 sample_backend sample_fs
        ⟨some 4⟩ "missing.bin").self = ⟨some 4⟩ :=
  ⟨by decide,
    deserialize_file_cannot_open (.cagra .float .uint32) .float .uint32 sample_backend
      sample_fs ⟨some 4⟩ "missing.bin" (by decide)⟩

/-- C3. For the facades of all three kinds and every populated facade `x`, assuming every
backend `deserialize` reads back what its `serialize` wrote: deserializing, into any
facade `y` of the same instantiation, the byte stream `x.serialize` wrote to an empty
stream returns normally and leaves `y` populated, with `search` results equal to those
of `x` for every search parameters, query set and output buffers, and with the same
`size()`. -/
theorem serialize_deserialize_search_equiv (k : Kind) (T : ElemType) (IdxT : IdType)
    (B : Backend I P S O) (x : I) (y : iface I) (bs : Bytes)
    (hinv : B.inverts)
    (hser : (iface.serialize (instantiation k T IdxT) T IdxT B ⟨some x⟩ []).result = .ok bs) :
    (∃ rest, (iface.deserialize (instantiation k T IdxT) T IdxT B y bs).result = .ok rest) ∧
    (iface.deserialize (instantiation k T IdxT) T IdxT B y bs).self.index_.isSome = true ∧
    (∀ sp q out,
      (iface.search (instantiation k T IdxT) T IdxT B
          (iface.deserialize (instantiation k T IdxT) T IdxT B y bs).self sp q out).result
        = (iface.search (instantiation k T IdxT) T IdxT B ⟨some x⟩ sp q out).result) ∧
    iface.size (instantiation k T IdxT) T IdxT B
        (iface.deserialize (instantiation k T IdxT) T IdxT B y bs).self
      = iface.size (instantiation k T IdxT) T IdxT B ⟨some x⟩ := by
  obtain ⟨hflat, hpq, hcagra⟩ := hinv
  have key : ∃ rest, (iface.deserialize (instantiation k T IdxT) T IdxT B y bs).result
        = .ok rest ∧
      (iface.deserialize (instantiation k T IdxT) T IdxT B y bs).self = ⟨some x⟩ := by
    cases k
    · cases h : B.ivf_flat.serialize x with
      | error e => simp [instantiation, iface.serialize, value, h] at hser
      | ok w =>
        have hw : w = bs := by simpa [instantiation, iface.serialize, value, h] using hser
        subst hw
        obtain ⟨rest, hd⟩ := hflat x w h
        exact ⟨rest, by simp [instantiation, iface.deserialize, hd]⟩
    · cases h : B.ivf_pq.serialize x with
      | error e => simp [instantiation, iface.serialize, value, h] at hser
      | ok w =>
        have hw : w = bs := by simpa [instantiation, iface.serialize, value, h] using hser
        subst hw
        obtain ⟨rest, hd⟩ := hpq x w h
        exact ⟨rest, by simp [instantiation, iface.deserialize, hd]⟩
    · cases h : B.cagra.serialize x true with
      | error e => simp [instantiation, iface.serialize, value, h] at hser
      | ok w =>
        have hw : w = bs := by simpa [instantiation, iface.serialize, value, h] using hser
        subst hw
        obtain ⟨rest, hd⟩ := hcagra x w h
        exact ⟨rest, by simp [instantiation, iface.deserialize, hd]⟩
  obtain ⟨rest, hres, hself⟩ := key
  refine ⟨⟨rest, hres⟩, ?_, ?_, ?_⟩
  · rw [hself]; rfl
  · intro sp q out; rw [hself]
  · rw [hself]

/-- The concrete backend reads back what it writes. -/
theorem sample_backend_inverts : sample_backend.inverts := by
  refine ⟨?_, ?_, ?_⟩ <;>
  · intro i bs h
    simp [sample_backend, sample_ivf, sample_cagra] at h
    subst h
    exact ⟨[], rfl⟩

/-- Witness of C3: the concrete CAGRA index of 6 vectors, written and read back into an
empty facade. -/
theorem serialize_deserialize_search_equiv_witness :
    (∃ rest, (iface.deserialize (instantiation .cagra .float .uint32) .float .uint32
        sample_backend ⟨none⟩ [6]).result = .ok rest) ∧
    (iface.deserialize (instantiation .cagra .float .uint32) .float .uint32
        sample_backend ⟨none⟩ [6]).self.index_.isSome = true ∧
    (∀ sp q out,
      (iface.search (instantiation .cagra .float .uint32) .float .uint32 sample_backend
          (iface.deserialize (instantiation .cagra .float .uint32) .float .uint32
            sample_backend ⟨none⟩ [6]).self sp q out).result
        = (iface.search (instantiation .cagra .float .uint32) .float .uint32 sample_backend
            ⟨some 6⟩ sp q out).result) ∧
    iface.size (instantiation .cagra .float .uint32) .float .uint32 sample_backend
        (iface.deserialize (instantiation .cagra .float .uint32) .float .uint32
          sample_backend ⟨none⟩ [6]).self
      = iface.size (instantiation .cagra .float .uint32) .float .uint32 sample_backend
          ⟨some 6⟩ :=
  serialize_deserialize_search_equiv .cagra .float .uint32 sample_backend 6 ⟨none⟩ [6]
    sample_backend_inverts rfl

/-- The device copy of a well-formed host query view has the same extents and elements. -/
theorem d_queries_of_wf (h_queries : mdspan) (h : h_queries.wf) :
    d_queries h_queries = h_queries := by
  obtain ⟨_, _, hlen⟩ := h
  cases h_queries with
  | mk e0 e1 data =>
    simp only [d_queries, mdspan.mk.injEq, true_and]
    apply List.take_of_length_le
    simp only at hlen
    omega

/-- On the instantiations `iface::search` is written for (`int64_t` identifiers for
IVF-Flat and IVF-PQ, `uint32_t` for CAGRA) and a populated facade, `search` calls the
backend `search` of the facade's kind on the held index, the given parameters and the
copied queries, and its outcome is that call's outcome. -/
theorem search_runs_backend (k : Kind) (T : ElemType) (B : Backend I P S O) (cur : I)
    (sp : S) (q : mdspan) (out : O) :
    (iface.search (instantiation k T (search_id k)) T (search_id k) B ⟨some cur⟩
        sp q out).calls.head? = some (.search k sp cur (d_queries q)) ∧
    (iface.search (instantiation k T (search_id k)) T (search_id k) B ⟨some cur⟩
        sp q out).result = B.search_of k sp cur (d_queries q) out := by
  cases k
  · cases h : B.ivf_flat.search sp cur (d_queries q) out <;>
      simp [instantiation, search_id, iface.search, value, Backend.search_of, h]
  · cases h : B.ivf_pq.search sp cur (d_queries q) out <;>
      simp [instantiation, search_id, iface.search, value, Backend.search_of, h]
  · cases h : B.cagra.search sp cur (d_queries q) out <;>
      simp [instantiation, search_id, iface.search, value, Backend.search_of, h]

/-- On the instantiations `iface::search` is written for, searching a facade whose index
is absent throws `std::bad_optional_access` before any call is issued. -/
theorem search_absent_throws (k : Kind) (T : ElemType) (B : Backend I P S O)
    (sp : S) (q : mdspan) (out : O) :
    (iface.search (instantiation k T (search_id k)) T (search_id k) B ⟨none⟩
        sp q out).result = .error .bad_optional_access ∧
    (iface.search (instantiation k T (search_id k)) T (search_id k) B ⟨none⟩
        sp q out).calls = [] := by
  cases k <;> simp [instantiation, search_id, iface.search, value]

/-- On every facade whose identifier type is not the one `iface::search` is written for,
`search` takes no branch, in any state: it only synchronises the stream and returns the
output buffers as it received them. -/
theorem search_other_id_runs_no_backend (k : Kind) (T : ElemType) (IdxT : IdType)
    (B : Backend I P S O) (s : iface I) (sp : S) (q : mdspan) (out : O)
    (h : IdxT ≠ search_id k) :
    (iface.search (instantiation k T IdxT) T IdxT B s sp q out).calls = [.sync_stream] ∧
    (iface.search (instantiation k T IdxT) T IdxT B s sp q out).result = .ok out ∧
    (iface.search (instantiation k T IdxT) T IdxT B s sp q out).self = s := by
  cases k <;> simp [search_id] at h <;> simp [instantiation, iface.search, h]

/-- C4, at the instantiation `iface<ivf_flat::index<float, uint32_t>, float, uint32_t>`:
`build` takes the IVF-Flat branch and calls `ivf_flat::build`, yet `search` on the
populated facade takes no branch: it returns normally having only synchronised the
stream, no backend `search` is run and the output buffers are left as they were. -/
theorem search_ivf_flat_uint32_runs_no_backend (B : Backend I P S O) (s : iface I)
    (p : P) (ds : mdspan) (cur : I) (sp : S) (q : mdspan) (out : O) :
    (iface.build (instantiation .ivf_flat .float .uint32) .float .uint32 B s p ds).calls.head?
      = some (.build .ivf_flat p ds) ∧
    (iface.search (instantiation .ivf_flat .float .uint32) .float .uint32 B ⟨some cur⟩
        sp q out).calls = [.sync_stream] ∧
    (iface.search (instantiation .ivf_flat .float .uint32) .float .uint32 B ⟨some cur⟩
        sp q out).result = .ok out := by
  refine ⟨?_, ?_, ?_⟩
  · cases h : B.ivf_flat.build p ds <;> simp [instantiation, iface.build, h]
  · simp [instantiation, iface.search]
  · simp [instantiation, iface.search]

/-- C5, at the instantiation `iface<ivf_pq::index<uint32_t>, float, uint32_t>`: `search`
on a facade whose index is absent takes no branch, never evaluates `index_.value()`, and
returns normally with the output buffers untouched instead of throwing. -/
theorem search_ivf_pq_uint32_absent_returns (B : Backend I P S O) (sp : S) (q : mdspan)
    (out : O) :
    (iface.search (instantiation .ivf_pq .float .uint32) .float .uint32 B ⟨none⟩
        sp q out).result = .ok out ∧
    (iface.search (instantiation .ivf_pq .float .uint32) .float .uint32 B ⟨none⟩
        sp q out).calls = [.sync_stream] := by
  simp [instantiation, iface.search]

/-- C6, as stated, fails: on the IVF-Flat facade `iface<ivf_flat::index<float, int64_t>,
float, int64_t>` with the index absent, `build` given parameters whose dynamic type is
`cagra::index_params` returns normally, having called `ivf_flat::build` on those very
parameters, and the facade is populated. -/
theorem build_accepts_mismatched_params :
    (⟨.cagra, 0⟩ : params_obj Nat).kind ≠ (AnnIndexType.ivf_flat .float .int64).kind ∧
    (iface.build (instantiation .ivf_flat .float .int64) .float .int64 sample_backend
        ⟨none⟩ ⟨.cagra, 0⟩ ⟨3, 1, [1, 2, 3]⟩).result = .ok () ∧
    (iface.build (instantiation .ivf_flat .float .int64) .float .int64 sample_backend
        ⟨none⟩ ⟨.cagra, 0⟩ ⟨3, 1, [1, 2, 3]⟩).calls
      = [.build .ivf_flat ⟨.cagra, 0⟩ ⟨3, 1, [1, 2, 3]⟩, .sync_stream] ∧
    (iface.build (instantiation .ivf_flat .float .int64) .float .int64 sample_backend
        ⟨none⟩ ⟨.cagra, 0⟩ ⟨3, 1, [1, 2, 3]⟩).self = ⟨some 3⟩ := by
  refine ⟨by decide, rfl, rfl, rfl⟩

/-- C6, amended. `iface::build` does not look at the kind of the parameters it is given:
for every facade of kind `k`, every state and every parameter object `p` (whatever
`p.kind`), it calls the backend `build` of kind `k` on `p` itself, and nothing else but
the stream synchronisation; when that call returns an index the facade holds it and
`build` returns normally, when it throws the same error leaves `build` and the facade is
unchanged. -/
theorem build_dispatches_on_facade_kind {D : Type} (k : Kind) (T : ElemType) (IdxT : IdType)
    (B : Backend I (params_obj D) S O) (self : iface I) (p : params_obj D) (ds : mdspan) :
    ((iface.build (instantiation k T IdxT) T IdxT B self p ds).calls = [.build k p ds] ∨
      (iface.build (instantiation k T IdxT) T IdxT B self p ds).calls
        = [.build k p ds, .sync_stream]) ∧
    (∀ idx, B.build_of k p ds = .ok idx →
      (iface.build (instantiation k T IdxT) T IdxT B self p ds).result = .ok () ∧
      (iface.build (instantiation k T IdxT) T IdxT B self p ds).self = ⟨some idx⟩) ∧
    (∀ e, B.build_of k p ds = .error e →
      (iface.build (instantiation k T IdxT) T IdxT B self p ds).result = .error e ∧
      (iface.build (instantiation k T IdxT) T IdxT B self p ds).self = self) := by
  cases k
  · cases h : B.ivf_flat.build p ds <;>
      simp [instantiation, iface.build, Backend.build_of, h]
  · cases h : B.ivf_pq.build p ds <;>
      simp [instantiation, iface.build, Backend.build_of, h]
  · cases h : B.cagra.build p ds <;>
      simp [instantiation, iface.build, Backend.build_of, h]

/-- Witness of C6 amended: parameters of dynamic type `cagra::index_params` given to the
concrete IVF-PQ facade, once with a dataset the backend accepts and once with one it
rejects. -/
theorem build_dispatches_on_facade_kind_witness :
    sample_backend.build_of .ivf_pq ⟨.cagra, 0⟩ ⟨3, 1, [1, 2, 3]⟩ = .ok 3 ∧
    (iface.build (instantiation .ivf_pq .float .int64) .float .int64 sample_backend
        ⟨some 8⟩ ⟨.cagra, 0⟩ ⟨3, 1, [1, 2, 3]⟩).result = .ok () ∧
    (iface.build (instantiation .ivf_pq .float .int64) .float .int64 sample_backend
        ⟨some 8⟩ ⟨.cagra, 0⟩ ⟨3, 1, [1, 2, 3]⟩).self = ⟨some 3⟩ ∧
    sample_backend.build_of .ivf_pq ⟨.cagra, 0⟩ ⟨0, 1, []⟩ = .error (.backend 1) ∧
    (iface.build (instantiation .ivf_pq .float .int64) .float .int64 sample_backend
        ⟨some 8⟩ ⟨.cagra, 0⟩ ⟨0, 1, []⟩).result = .error (.backend 1) ∧
    (iface.build (instantiation .ivf_pq .float .int64) .float .int64 sample_backend
        ⟨some 8⟩ ⟨.cagra, 0⟩ ⟨0, 1, []⟩).self = ⟨some 8⟩ :=
  ⟨rfl,
    (build_dispatches_on_facade_kind .ivf_pq .float .int64 sample_backend ⟨some 8⟩
      ⟨.cagra, 0⟩ ⟨3, 1, [1, 2, 3]⟩).2.1 3 rfl |>.1,
    (build_dispatches_on_facade_kind .ivf_pq .float .int64 sample_backend ⟨some 8⟩
      ⟨.cagra, 0⟩ ⟨3, 1, [1, 2, 3]⟩).2.1 3 rfl |>.2,
    rfl,
    (build_dispatches_on_facade_kind .ivf_pq .float .int64 sample_backend ⟨some 8⟩
      ⟨.cagra, 0⟩ ⟨0, 1, []⟩).2.2 (.backend 1) rfl |>.1,
    (build_dispatches_on_facade_kind .ivf_pq .float .int64 sample_backend ⟨some 8⟩
      ⟨.cagra, 0⟩ ⟨0, 1, []⟩).2.2 (.backend 1) rfl |>.2⟩

end cuvs.neighbors

namespace cuvs.bench

open cuvs.neighbors

variable {I P S O X : Type}

/-- C9, as stated, fails: compiled with `NDEBUG`, `set_search_param` given `n_probes = 5`
on a wrapper built with `n_lists = 3` returns normally and the stored `n_probes` exceeds
`n_lists`. -/
theorem set_search_param_ndebug_stores_excess :
    (cuvs_ann_mg_ivf_flat.set_search_param true sample_wrapper
        (.mg_ivf_flat ⟨⟨5, 0⟩, 1⟩)).result = .ok () ∧
    ¬ (cuvs_ann_mg_ivf_flat.set_search_param true sample_wrapper
        (.mg_ivf_flat ⟨⟨5, 0⟩, 1⟩)).self.search_params_.n_probes
      ≤ (cuvs_ann_mg_ivf_flat.set_search_param true sample_wrapper
        (.mg_ivf_flat ⟨⟨5, 0⟩, 1⟩)).self.index_params_.n_lists := by
  refine ⟨rfl, ?_⟩
  decide

/-- C9, amended. When the wrapper is compiled with assertions enabled (`NDEBUG` not
defined): `set_search_param` called with parameters whose `n_probes` exceeds the build
parameters' `n_lists` does not return normally (the assertion fails), and after every
call that returns normally the argument was a `search_param`, `search_params_` and
`merge_mode_` equal its `ivf_flat_params` and `merge_mode`, the build parameters are
untouched and the stored `n_probes` is at most `n_lists`. -/
theorem set_search_param_checked (ndebug : Bool) (self : cuvs_ann_mg_ivf_flat X)
    (param : search_param_base) (h : ndebug = false) :
    (∀ sp, param = .mg_ivf_flat sp →
      self.index_params_.n_lists < sp.ivf_flat_params.n_probes →
      (cuvs_ann_mg_ivf_flat.set_search_param ndebug self param).result
        = .error .assertion_failed) ∧
    ((cuvs_ann_mg_ivf_flat.set_search_param ndebug self param).result = .ok () →
      ∃ sp, param = .mg_ivf_flat sp ∧
        (cuvs_ann_mg_ivf_flat.set_search_param ndebug self param).self.search_params_
          = sp.ivf_flat_params ∧
        (cuvs_ann_mg_ivf_flat.set_search_param ndebug self param).self.merge_mode_
          = sp.merge_mode ∧
        (cuvs_ann_mg_ivf_flat.set_search_param ndebug self param).self.index_params_
          = self.index_params_ ∧
        (cuvs_ann_mg_ivf_flat.set_search_param ndebug self param).self.search_params_.n_probes
          ≤ (cuvs_ann_mg_ivf_flat.set_search_param ndebug self param).self.index_params_.n_lists)
    := by
  subst h
  refine ⟨?_, ?_⟩
  · intro sp hp hlt
    subst hp
    have : ¬ sp.ivf_flat_params.n_probes ≤ self.index_params_.n_lists := by omega
    simp [cuvs_ann_mg_ivf_flat.set_search_param, dynamic_cast, this]
  · intro hok
    cases param with
    | foreign id => simp [cuvs_ann_mg_ivf_flat.set_search_param, dynamic_cast] at hok
    | mg_ivf_flat sp =>
      by_cases hle : sp.ivf_flat_params.n_probes ≤ self.index_params_.n_lists
      · exact ⟨sp, rfl, by simp [cuvs_ann_mg_ivf_flat.set_search_param, dynamic_cast, hle]⟩
      · simp [cuvs_ann_mg_ivf_flat.set_search_param, dynamic_cast, hle] at hok

/-- Witness of C9 amended: with assertions enabled, `n_probes = 5` against `n_lists = 3`
fails the assertion, and `n_probes = 2` is stored. -/
theorem set_search_param_checked_witness :
    (cuvs_ann_mg_ivf_flat.set_search_param false sample_wrapper
        (.mg_ivf_flat ⟨⟨5, 0⟩, 1⟩)).result = .error .assertion_failed ∧
    ∃ sp, search_param_base.mg_ivf_flat ⟨⟨2, 0⟩, 1⟩ = .mg_ivf_flat sp ∧
      (cuvs_ann_mg_ivf_flat.set_search_param false sample_wrapper
          (.mg_ivf_flat ⟨⟨2, 0⟩, 1⟩)).self.search_params_ = sp.ivf_flat_params ∧
      (cuvs_ann_mg_ivf_flat.set_search_param false sample_wrapper
          (.mg_ivf_flat ⟨⟨2, 0⟩, 1⟩)).self.merge_mode_ = sp.merge_mode ∧
      (cuvs_ann_mg_ivf_flat.set_search_param false sample_wrapper
          (.mg_ivf_flat ⟨⟨2, 0⟩, 1⟩)).self.index_params_ = sample_wrapper.index_params_ ∧
      (cuvs_ann_mg_ivf_flat.set_search_param false sample_wrapper
          (.mg_ivf_flat ⟨⟨2, 0⟩, 1⟩)).self.search_params_.n_probes
        ≤ (cuvs_ann_mg_ivf_flat.set_search_param false sample_wrapper
          (.mg_ivf_flat ⟨⟨2, 0⟩, 1⟩)).self.index_params_.n_lists :=
  ⟨(set_search_param_checked false sample_wrapper (.mg_ivf_flat ⟨⟨5, 0⟩, 1⟩) rfl).1
      ⟨⟨5, 0⟩, 1⟩ rfl (by decide),
    (set_search_param_checked false sample_wrapper (.mg_ivf_flat ⟨⟨2, 0⟩, 1⟩) rfl).2 rfl⟩

/-- C10. A failed build leaves no trace in the object. For the facade of every kind: when
the backend `build` throws, `iface::build` throws the same error and the facade (its
index absent or populated) is unchanged. For the multi-device wrapper: when `mg::build`
throws, `build` throws the same error and the wrapper, in particular `index_`, is
unchanged; when `mg::deserialize_flat` throws, `load` throws the same error and the
wrapper is unchanged. -/
theorem failed_build_keeps_index (k : Kind) (T : ElemType) (IdxT : IdType)
    (B : Backend I P S O) (s : iface I) (p : P) (ds : mdspan)
    (M : MgApi X O) (w : cuvs_ann_mg_ivf_flat X) (dataset : List Int) (nrow : Nat)
    (file : String) :
    (∀ e, B.build_of k p ds = .error e →
      (iface.build (instantiation k T IdxT) T IdxT B s p ds).result = .error e ∧
      (iface.build (instantiation k T IdxT) T IdxT B s p ds).self = s) ∧
    (∀ e, M.build w.index_params_ ⟨IdxT.convert nrow, IdxT.convert w.dim_, dataset⟩
        = .error e →
      (cuvs_ann_mg_ivf_flat.build IdxT M w dataset nrow).result = .error e ∧
      (cuvs_ann_mg_ivf_flat.build IdxT M w dataset nrow).self = w) ∧
    (∀ e, M.deserialize_flat file = .error e →
      (cuvs_ann_mg_ivf_flat.load M w file).result = .error e ∧
      (cuvs_ann_mg_ivf_flat.load M w file).self = w) := by
  refine ⟨?_, ?_, ?_⟩
  · intro e he
    cases k <;> simp [Backend.build_of] at he <;>
      simp [instantiation, iface.build, he]
  · intro e he
    simp [cuvs_ann_mg_ivf_flat.build, he]
  · intro e he
    simp [cuvs_ann_mg_ivf_flat.load, he]

/-- Witness of C10: the concrete backends reject an empty dataset and an unreadable file;
the populated facade and wrapper keep the index they held. -/
theorem failed_build_keeps_index_witness :
    ((iface.build (instantiation .cagra .float .uint32) .float .uint32 sample_backend
        ⟨some 8⟩ ⟨.cagra, 0⟩ ⟨0, 4, []⟩).result = .error (.backend 1) ∧
      (iface.build (instantiation .cagra .float .uint32) .float .uint32 sample_backend
        ⟨some 8⟩ ⟨.cagra, 0⟩ ⟨0, 4, []⟩).self = ⟨some 8⟩) ∧
    ((cuvs_ann_mg_ivf_flat.build .uint32 sample_mg sample_wrapper [] 0).result
        = .error (.backend 1) ∧
      (cuvs_ann_mg_ivf_flat.build .uint32 sample_mg sample_wrapper [] 0).self
        = sample_wrapper) ∧
    ((cuvs_ann_mg_ivf_flat.load sample_mg sample_wrapper "index.bin").result
        = .error (.backend 3) ∧
      (cuvs_ann_mg_ivf_flat.load sample_mg sample_wrapper "index.bin").self
        = sample_wrapper) :=
  ⟨(failed_build_keeps_index .cagra .float .uint32 sample_backend ⟨some 8⟩ ⟨.cagra, 0⟩
      ⟨0, 4, []⟩ sample_mg sample_wrapper [] 0 "index.bin").1 (.backend 1) rfl,
    (failed_build_keeps_index .cagra .float .uint32 sample_backend ⟨some 8⟩ ⟨.cagra, 0⟩
      ⟨0, 4, []⟩ sample_mg sample_wrapper [] 0 "index.bin").2.1 (.backend 1) rfl,
    (failed_build_keeps_index .cagra .float .uint32 sample_backend ⟨some 8⟩ ⟨.cagra, 0⟩
      ⟨0, 4, []⟩ sample_mg sample_wrapper [] 0 "index.bin").2.2 (.backend 3) rfl⟩

end cuvs.bench
